import Mathlib

/-!
Shallow embedding of the funnel-analytics ledger (`src/analytics.js`) and
verification of the frozen claims about it.

Modelling conventions:
* JavaScript objects with a dynamic but in-practice-fixed key universe
  (`funnelMetrics`, `conversionRates`) become Lean structures; objects with
  genuinely open keys (`dailyStats`, a day bucket's `events`, a session's
  `funnel` flag set) become association lists / key lists over `String`.
* Machine numbers: all counters are naturals.  The JavaScript expression
  `((num / den) * 100).toFixed(2)` is modelled at exact-rational precision:
  the rendered value is `floor(10000 * num / den + 1/2)` hundredths,
  i.e. round-half-up of the exact rational, written with exactly two
  digits after the decimal point (JavaScript `toFixed` pads with zeros).
* Ambient browser inputs (session id, current instant, page, url, ...) are
  gathered in an `Env` record passed to each recording step; the clock value
  is the ISO-8601 string `new Date().toISOString()` would produce.
* `localStorage` is modelled at the interface: a slot `Option String` read
  through an abstract parser for `loadData`, and a slot `Option AnalyticsData`
  (the document a successful write serialises) for `resetAnalytics`.
-/

/-- One recorded interaction, as built at the top of `trackEvent`
(`src/analytics.js` lines 278-288): the event name, the session id, the
ISO timestamp, the detected page and the environment descriptors stored
verbatim.  The free-form payload is kept opaque as a string. -/
structure Event where
  event : String
  sessionId : String
  timestamp : String
  page : String
  url : String
  referrer : String
  userAgent : String
  screenResolution : String
  data : String
deriving Repr, DecidableEq

/-- The six canonical funnel counters (`funnelMetrics` in `getDefaultData`,
lines 63-70).  The key set of this object never changes, so it is a
structure. -/
structure Metrics where
  quiz_loaded : Nat
  quiz_started : Nat
  quiz_completed : Nat
  sales_page_loaded : Nat
  sales_page_scrolled : Nat
  checkout_clicked : Nat
deriving Repr, DecidableEq

/-- The `conversionRates` object.  Only the six keys below are ever written
(`calculateConversionRates`, lines 346-384), so the object is a structure of
optional formatted strings; `none` models an absent key. -/
structure Rates where
  quizStartRate : Option String
  quizCompletionRate : Option String
  salesPageViewRate : Option String
  scrollRate : Option String
  checkoutClickRate : Option String
  overallConversionRate : Option String
deriving Repr, DecidableEq

/-- One `dailyStats[day]` bucket, created as
`{sessions: 0, events: {}, conversions: {}}` (lines 300-306). -/
structure DayBucket where
  sessions : Nat
  events : List (String × Nat)
  conversions : List (String × Nat)
deriving Repr, DecidableEq

/-- One entry of `data.sessions` (`updateSessionData`, lines 327-343).
`funnel` models the key set of the JS object `session.funnel` (the values
are always `true`, so only the keys matter).  A freshly created session has
no `lastActivity` key until the first assignment a few lines later; the
initial `""` stands for that transient absence. -/
structure Session where
  id : String
  startTime : String
  events : List String
  funnel : List String
  lastActivity : String
deriving Repr, DecidableEq

/-- The whole persisted analytics document (`getDefaultData`, lines 59-75). -/
structure AnalyticsData where
  totalSessions : Nat
  events : List Event
  funnelMetrics : Metrics
  dailyStats : List (String × DayBucket)
  conversionRates : Rates
  sessions : List Session
deriving Repr, DecidableEq

/-- Ambient browser state consumed by one `trackEvent` call: the cached
session id, the current instant (as `new Date().toISOString()`), the
detected page and the stored environment descriptors, plus the opaque
payload argument. -/
structure Env where
  sessionId : String
  now : String
  page : String
  url : String
  referrer : String
  userAgent : String
  screen : String
  payload : String
deriving Repr, DecidableEq

/-- Association-list lookup, modelling a JS property read `obj[k]`
(first binding wins; in reachable states keys are unique). -/
def lookupKey {α : Type} : List (String × α) → String → Option α
  | [], _ => none
  | p :: rest, k => if p.1 = k then some p.2 else lookupKey rest k

/-- Association-list update, modelling a JS property write `obj[k] = v`:
overwrite an existing binding in place, otherwise append the new key. -/
def setKey {α : Type} : List (String × α) → String → α → List (String × α)
  | [], k, v => [(k, v)]
  | p :: rest, k, v => if p.1 = k then (k, v) :: rest else p :: setKey rest k v

/-- The empty `conversionRates` object of the default document. -/
def emptyRates : Rates := ⟨none, none, none, none, none, none⟩

/-- The all-zero `funnelMetrics` of the default document. -/
def zeroMetrics : Metrics := ⟨0, 0, 0, 0, 0, 0⟩

/-- Default analytics document (`getDefaultData`, lines 59-75). -/
def getDefaultData : AnalyticsData :=
  { totalSessions := 0
    events := []
    funnelMetrics := zeroMetrics
    dailyStats := []
    conversionRates := emptyRates
    sessions := [] }

/-- Render a number of hundredths as a decimal string with exactly two
digits after the point, the way `toFixed(2)` lays out its result
(e.g. `4000 ↦ "40.00"`, `2500 ↦ "25.00"`, `7 ↦ "0.07"`). -/
def renderCents (c : Nat) : String :=
  toString (c / 100) ++ "." ++ String.mk [Nat.digitChar (c / 10 % 10), Nat.digitChar (c % 10)]

/-- Model of the JavaScript expression `((num / den) * 100).toFixed(2)`
at exact-rational precision: the value in hundredths is
`floor(10000 * num / den + 1/2)`, computed here with natural division as
`(20000 * num + den) / (2 * den)`, then rendered with two decimals. -/
def toFixed2 (num den : Nat) : String :=
  renderCents ((20000 * num + den) / (2 * den))

/-- `calculateConversionRates` (lines 346-384): for each of the six rates,
if the denominator metric is positive, overwrite that key of the
`conversionRates` object with the freshly formatted percentage; keys whose
denominator is zero are left untouched (in particular never created). -/
def calculateConversionRates (m : Metrics) (cr : Rates) : Rates :=
  let cr := if 0 < m.quiz_loaded then
    { cr with quizStartRate := some (toFixed2 m.quiz_started m.quiz_loaded) } else cr
  let cr := if 0 < m.quiz_started then
    { cr with quizCompletionRate := some (toFixed2 m.quiz_completed m.quiz_started) } else cr
  let cr := if 0 < m.quiz_completed then
    { cr with salesPageViewRate := some (toFixed2 m.sales_page_loaded m.quiz_completed) } else cr
  let cr := if 0 < m.sales_page_loaded then
    { cr with scrollRate := some (toFixed2 m.sales_page_scrolled m.sales_page_loaded) } else cr
  let cr := if 0 < m.sales_page_scrolled then
    { cr with checkoutClickRate := some (toFixed2 m.checkout_clicked m.sales_page_scrolled) } else cr
  if 0 < m.quiz_loaded then
    { cr with overallConversionRate := some (toFixed2 m.checkout_clicked m.quiz_loaded) } else cr

/-- The specification's pure `computeConversionRates()`: the rate
computation applied to an empty mapping, so that exactly the rates with a
positive denominator are present. -/
def computeConversionRates (m : Metrics) : Rates :=
  calculateConversionRates m emptyRates

/-- Names of the six conversion rates, for the quantified statements. -/
inductive RateKey
  | quizStart
  | quizCompletion
  | salesPageView
  | scroll
  | checkoutClick
  | overall
deriving Repr, DecidableEq

/-- Numerator assigned to each rate by the specification's table. -/
def RateKey.num : RateKey → Metrics → Nat
  | .quizStart, m => m.quiz_started
  | .quizCompletion, m => m.quiz_completed
  | .salesPageView, m => m.sales_page_loaded
  | .scroll, m => m.sales_page_scrolled
  | .checkoutClick, m => m.checkout_clicked
  | .overall, m => m.checkout_clicked

/-- Denominator assigned to each rate by the specification's table. -/
def RateKey.den : RateKey → Metrics → Nat
  | .quizStart, m => m.quiz_loaded
  | .quizCompletion, m => m.quiz_started
  | .salesPageView, m => m.quiz_completed
  | .scroll, m => m.sales_page_loaded
  | .checkoutClick, m => m.sales_page_scrolled
  | .overall, m => m.quiz_loaded

/-- Projection of the rate's entry out of a `conversionRates` object. -/
def RateKey.get : RateKey → Rates → Option String
  | .quizStart, r => r.quizStartRate
  | .quizCompletion, r => r.quizCompletionRate
  | .salesPageView, r => r.salesPageViewRate
  | .scroll, r => r.scrollRate
  | .checkoutClick, r => r.checkoutClickRate
  | .overall, r => r.overallConversionRate

/-- Specification-side rounding: `round2(100 * num / den)` expressed in
hundredths over the exact rationals, rounding half up. -/
def specCents (num den : Nat) : Nat :=
  ⌊100 * (num : ℚ) / (den : ℚ) * 100 + 1 / 2⌋₊

/-- The six canonical funnel-stage names (`FUNNEL_STAGES`, lines 10-17),
exactly the key set of the default `funnelMetrics` object. -/
def canonicalStages : List String :=
  ["quiz_loaded", "quiz_started", "quiz_completed",
   "sales_page_loaded", "sales_page_scrolled", "checkout_clicked"]

/-- The conditional counter bump of `trackEvent` lines 293-296:
`if (funnelMetrics.hasOwnProperty(eventName)) funnelMetrics[eventName]++`.
The key set of `funnelMetrics` is always the six canonical names. -/
def incMetric (eventName : String) (m : Metrics) : Metrics :=
  if eventName = "quiz_loaded" then { m with quiz_loaded := m.quiz_loaded + 1 }
  else if eventName = "quiz_started" then { m with quiz_started := m.quiz_started + 1 }
  else if eventName = "quiz_completed" then { m with quiz_completed := m.quiz_completed + 1 }
  else if eventName = "sales_page_loaded" then { m with sales_page_loaded := m.sales_page_loaded + 1 }
  else if eventName = "sales_page_scrolled" then { m with sales_page_scrolled := m.sales_page_scrolled + 1 }
  else if eventName = "checkout_clicked" then { m with checkout_clicked := m.checkout_clicked + 1 }
  else m

/-- Read the counter `funnelMetrics[name]` (0 for a non-canonical name,
which has no counter). -/
def metricVal (eventName : String) (m : Metrics) : Nat :=
  if eventName = "quiz_loaded" then m.quiz_loaded
  else if eventName = "quiz_started" then m.quiz_started
  else if eventName = "quiz_completed" then m.quiz_completed
  else if eventName = "sales_page_loaded" then m.sales_page_loaded
  else if eventName = "sales_page_scrolled" then m.sales_page_scrolled
  else if eventName = "checkout_clicked" then m.checkout_clicked
  else 0

/-- Characters before the first `'T'` (the whole list when none occurs). -/
def takeUntilT : List Char → List Char
  | [] => []
  | c :: rest => if c = 'T' then [] else c :: takeUntilT rest

/-- Calendar-day key of an ISO instant: `toISOString().split('T')[0]`
(line 299), i.e. the prefix of the string before its first `'T'`. -/
def dayKey (now : String) : String :=
  String.mk (takeUntilT now.data)

/-- The event object built at the top of `trackEvent` (lines 278-288). -/
def mkEvent (env : Env) (eventName : String) : Event :=
  { event := eventName
    sessionId := env.sessionId
    timestamp := env.now
    page := env.page
    url := env.url
    referrer := env.referrer
    userAgent := env.userAgent
    screenResolution := env.screen
    data := env.payload }

/-- Day-bucket update of `trackEvent` (lines 298-311): create the bucket
`{sessions: 0, events: {}, conversions: {}}` if the day key is absent,
create the per-name counter at 0 if absent, then increment it. -/
def updateDailyStats (day eventName : String) (st : AnalyticsData) : AnalyticsData :=
  let bucket := (lookupKey st.dailyStats day).getD ⟨0, [], []⟩
  let oldCount := (lookupKey bucket.events eventName).getD 0
  { st with dailyStats :=
      setKey st.dailyStats day { bucket with events := setKey bucket.events eventName (oldCount + 1) } }

/-- Write `session.funnel[name] = true` on a JS object viewed as its key
set: a membership-test insert, idempotent on the key set. -/
def insertFlag (l : List String) (k : String) : List String :=
  if k ∈ l then l else l ++ [k]

/-- The in-place mutation applied to the located (or freshly created)
session object (lines 340-342): push the event name, refresh
`lastActivity`, set the funnel flag. -/
def touchSession (eventName now : String) (s : Session) : Session :=
  { s with
    events := s.events ++ [eventName]
    lastActivity := now
    funnel := insertFlag s.funnel eventName }

/-- The session object created on first sight of a session id
(lines 330-335); `lastActivity` is assigned immediately afterwards. -/
def freshSession (env : Env) : Session :=
  { id := env.sessionId
    startTime := env.now
    events := []
    funnel := []
    lastActivity := "" }

/-- Mutate the first list entry whose id matches, leaving the rest alone:
the JS `Array.find` result is a live reference into the array. -/
def updateFirst (f : Session → Session) (sid : String) : List Session → List Session
  | [] => []
  | s :: rest => if s.id == sid then f s :: rest else s :: updateFirst f sid rest

/-- `updateSessionData` (lines 327-343): locate the session by the current
session id; if absent, create it, append it and increment `totalSessions`;
in both cases apply the `touchSession` mutations to it. -/
def updateSessionData (env : Env) (eventName : String) (st : AnalyticsData) : AnalyticsData :=
  match st.sessions.find? (fun s => s.id == env.sessionId) with
  | some _ =>
      { st with sessions := updateFirst (touchSession eventName env.now) env.sessionId st.sessions }
  | none =>
      { st with
        sessions := st.sessions ++ [touchSession eventName env.now (freshSession env)]
        totalSessions := st.totalSessions + 1 }

/-- `trackEvent` (lines 277-324), the in-memory document transition:
append the event, bump the canonical counter, bump the day bucket, upsert
the session, then recompute conversion rates on the updated metrics.
(The trailing `saveData` writes the resulting document to storage and the
trailing sink forwarding is modelled separately; neither changes the
document.) -/
def trackEvent (env : Env) (eventName : String) (st : AnalyticsData) : AnalyticsData :=
  let st1 := { st with events := st.events ++ [mkEvent env eventName] }
  let st2 := { st1 with funnelMetrics := incMetric eventName st1.funnelMetrics }
  let st3 := updateDailyStats (dayKey env.now) eventName st2
  let st4 := updateSessionData env eventName st3
  { st4 with conversionRates := calculateConversionRates st4.funnelMetrics st4.conversionRates }

/-- A finite sequence of `recordEvent` calls applied in order. -/
def applyTrace (tr : List (Env × String)) (st : AnalyticsData) : AnalyticsData :=
  match tr with
  | [] => st
  | e :: rest => applyTrace rest (trackEvent e.1 e.2 st)

/-- `loadData` (lines 45-56): read the store slot; a missing or empty slot
or a parse failure (`JSON.parse` throwing, modelled by the abstract parser
returning `none`) falls back to the default document.  The function is
total: no error reaches the caller. -/
def loadData (stored : Option String) (parse : String → Option AnalyticsData) : AnalyticsData :=
  match stored with
  | none => getDefaultData
  | some s =>
      if s = "" then getDefaultData
      else
        match parse s with
        | some d => d
        | none => getDefaultData

/-- `resetAnalytics` (lines 409-417) with the `confirm(...)` dialog result
supplied as the `confirmed` argument.  On confirmation the stored slot is
removed, the document replaced by the default and saved again (the slot
ends up holding the serialised default); otherwise nothing happens.
Returns the dialog result together with the final document and slot. -/
def resetAnalytics (confirmed : Bool) (st : AnalyticsData) (store : Option AnalyticsData) :
    Bool × AnalyticsData × Option AnalyticsData :=
  if confirmed then (true, getDefaultData, some getDefaultData)
  else (false, st, store)

/-- `sendToExternalAnalytics` (lines 387-401): call `gtag` when defined,
then `fbq` when defined.  A sink is `none` when the global is undefined;
a defined sink may throw, modelled by `Except.error`.  There is no
try/catch here, so a thrown error aborts the forwarding and propagates. -/
def sendToExternalAnalytics (gtag fbq : Option (Event → Except String Unit))
    (e : Event) : Except String Unit :=
  match gtag with
  | some g =>
      match g e with
      | Except.error msg => Except.error msg
      | Except.ok _ =>
          match fbq with
          | some f => f e
          | none => Except.ok ()
  | none =>
      match fbq with
      | some f => f e
      | none => Except.ok ()

/-- Full `trackEvent` call including the final forwarding step (line 323):
the local steps 1-7 run first and produce the new document; the sink call
happens last, and its outcome (including a propagated exception) is the
call's outcome. -/
def trackEventWithSinks (gtag fbq : Option (Event → Except String Unit))
    (env : Env) (eventName : String) (st : AnalyticsData) :
    AnalyticsData × Except String Unit :=
  (trackEvent env eventName st, sendToExternalAnalytics gtag fbq (mkEvent env eventName))

/-- Single-slot heap holding the live analytics document `this.data`. -/
structure LedgerHeap where
  data : AnalyticsData
deriving Repr, DecidableEq

/-- A JavaScript object reference to the live document. -/
inductive DataRef
  | ref
deriving Repr, DecidableEq

/-- Dereference: read the document a reference points to. -/
def readRef (h : LedgerHeap) : DataRef → AnalyticsData
  | DataRef.ref => h.data

/-- Mutate the object a reference points to (what a caller does when it
writes through a value it was handed). -/
def writeRef (_h : LedgerHeap) : DataRef → AnalyticsData → LedgerHeap
  | DataRef.ref, d => { data := d }

/-- `getAnalytics` (lines 404-406): `return this.data` hands back the live
reference itself, with no copy made. -/
def getAnalytics (_h : LedgerHeap) : DataRef := DataRef.ref

/-- Locate a session by id, as `sessions.find(s => s.id === sid)`. -/
def findSession (st : AnalyticsData) (sid : String) : Option Session :=
  st.sessions.find? (fun s => s.id == sid)

/-- The counter `dailyStats[day].events[name]`, read as 0 when the day
bucket or the per-name counter is absent. -/
def dailyCount (st : AnalyticsData) (day eventName : String) : Nat :=
  match lookupKey st.dailyStats day with
  | none => 0
  | some b => (lookupKey b.events eventName).getD 0

/-- Number of entries for a given name in a session's funnel-flag set
(0 when the session does not exist). -/
def sessionFunnelCount (st : AnalyticsData) (sid eventName : String) : Nat :=
  match findSession st sid with
  | none => 0
  | some s => s.funnel.count eventName

/-- The sessions list after an upsert, as a function of the old list. -/
def upsertSessions (env : Env) (eventName : String) (l : List Session) : List Session :=
  match l.find? (fun s => s.id == env.sessionId) with
  | some _ => updateFirst (touchSession eventName env.now) env.sessionId l
  | none => l ++ [touchSession eventName env.now (freshSession env)]

/-- The session count after an upsert, as a function of the old state. -/
def upsertTotal (env : Env) (l : List Session) (total : Nat) : Nat :=
  match l.find? (fun s => s.id == env.sessionId) with
  | some _ => total
  | none => total + 1

/-- Pointwise order on the six counters. -/
def metricsLE (m m2 : Metrics) : Prop :=
  m.quiz_loaded ≤ m2.quiz_loaded ∧ m.quiz_started ≤ m2.quiz_started ∧
  m.quiz_completed ≤ m2.quiz_completed ∧ m.sales_page_loaded ≤ m2.sales_page_loaded ∧
  m.sales_page_scrolled ≤ m2.sales_page_scrolled ∧ m.checkout_clicked ≤ m2.checkout_clicked

/-- Environment used by the concrete scenarios in the claims below. -/
def envAt (sid now : String) : Env :=
  { sessionId := sid
    now := now
    page := "quiz"
    url := "https://example.test/index.html"
    referrer := ""
    userAgent := "ua"
    screen := "1920x1080"
    payload := "" }

/-- The specification's worked metrics example. -/
def testMetrics : Metrics := ⟨100, 40, 10, 8, 4, 1⟩

/-- The concrete two-day scenario: the same event name recorded on two
different calendar days. -/
def twoDayState : AnalyticsData :=
  applyTrace
    [(envAt "s1" "2026-10-10T08:00:00.000Z", "quiz_loaded"),
     (envAt "s1" "2026-10-11T09:00:00.000Z", "quiz_loaded")]
    getDefaultData

/-- Every reachable day bucket still has its creation-time auxiliary
fields: `sessions = 0` and an empty `conversions` object. -/
def dayBucketsPristine (st : AnalyticsData) : Prop :=
  ∀ d b, lookupKey st.dailyStats d = some b → b.sessions = 0 ∧ b.conversions = []

/-- The session-list representation invariant: ids are pairwise distinct
and `totalSessions` counts them. -/
def sessionsInv (st : AnalyticsData) : Prop :=
  (st.sessions.map Session.id).Nodup ∧ st.totalSessions = st.sessions.length

/-- The concrete upsert scenario: session ids s1, s2, then s1 again. -/
def s1s2s1State : AnalyticsData :=
  applyTrace
    [(envAt "s1" "2026-10-10T08:00:00.000Z", "quiz_loaded"),
     (envAt "s2" "2026-10-10T08:05:00.000Z", "quiz_loaded"),
     (envAt "s1" "2026-10-10T08:10:00.000Z", "quiz_started")]
    getDefaultData

theorem lookupKey_setKey {α : Type} (l : List (String × α)) (k k' : String) (v : α) :
    lookupKey (setKey l k v) k' = if k = k' then some v else lookupKey l k' := by
  induction l with
  | nil => simp [setKey, lookupKey]
  | cons p rest ih =>
    by_cases hp : p.1 = k
    · subst hp
      by_cases h : p.1 = k' <;> simp [setKey, lookupKey, h]
    · by_cases h : p.1 = k'
      · have hk : ¬k = k' := fun e => hp (h.trans e.symm)
        have hk2 : ¬k' = k := fun e => hk e.symm
        simp [setKey, lookupKey, hp, h, hk, hk2]
      · simp [setKey, lookupKey, hp, h, ih]

theorem specCents_eq_natDiv (num den : Nat) (h : den ≠ 0) :
    specCents num den = (20000 * num + den) / (2 * den) := by
  have hden : ((den : ℚ)) ≠ 0 := Nat.cast_ne_zero.mpr h
  have harg : 100 * (num : ℚ) / (den : ℚ) * 100 + 1 / 2
      = ((20000 * num + den : ℕ) : ℚ) / ((2 * den : ℕ) : ℚ) := by
    push_cast
    field_simp
    ring
  rw [specCents, harg, Nat.floor_div_eq_div]

set_option maxHeartbeats 1000000 in
theorem calculateConversionRates_fields (m : Metrics) (cr : Rates) :
    calculateConversionRates m cr =
      { quizStartRate := if 0 < m.quiz_loaded then
          some (toFixed2 m.quiz_started m.quiz_loaded) else cr.quizStartRate
        quizCompletionRate := if 0 < m.quiz_started then
          some (toFixed2 m.quiz_completed m.quiz_started) else cr.quizCompletionRate
        salesPageViewRate := if 0 < m.quiz_completed then
          some (toFixed2 m.sales_page_loaded m.quiz_completed) else cr.salesPageViewRate
        scrollRate := if 0 < m.sales_page_loaded then
          some (toFixed2 m.sales_page_scrolled m.sales_page_loaded) else cr.scrollRate
        checkoutClickRate := if 0 < m.sales_page_scrolled then
          some (toFixed2 m.checkout_clicked m.sales_page_scrolled) else cr.checkoutClickRate
        overallConversionRate := if 0 < m.quiz_loaded then
          some (toFixed2 m.checkout_clicked m.quiz_loaded) else cr.overallConversionRate } := by
  cases cr
  simp only [calculateConversionRates]
  split_ifs <;> rfl

/-- Per-rate description of `calculateConversionRates`: each of the six
keys is freshly overwritten when its denominator is positive, and left
alone otherwise. -/
theorem get_calculateConversionRates (m : Metrics) (cr : Rates) (k : RateKey) :
    k.get (calculateConversionRates m cr)
      = if 0 < k.den m then some (toFixed2 (k.num m) (k.den m)) else k.get cr := by
  cases k <;>
    simp [calculateConversionRates_fields, RateKey.get, RateKey.num, RateKey.den]

@[simp] theorem updateDailyStats_funnelMetrics (day n : String) (st : AnalyticsData) :
    (updateDailyStats day n st).funnelMetrics = st.funnelMetrics := rfl

@[simp] theorem updateDailyStats_conversionRates (day n : String) (st : AnalyticsData) :
    (updateDailyStats day n st).conversionRates = st.conversionRates := rfl

@[simp] theorem updateDailyStats_sessions (day n : String) (st : AnalyticsData) :
    (updateDailyStats day n st).sessions = st.sessions := rfl

@[simp] theorem updateDailyStats_totalSessions (day n : String) (st : AnalyticsData) :
    (updateDailyStats day n st).totalSessions = st.totalSessions := rfl

@[simp] theorem updateDailyStats_events (day n : String) (st : AnalyticsData) :
    (updateDailyStats day n st).events = st.events := rfl

theorem updateDailyStats_dailyStats (day n : String) (st : AnalyticsData) :
    (updateDailyStats day n st).dailyStats =
      setKey st.dailyStats day
        { (lookupKey st.dailyStats day).getD ⟨0, [], []⟩ with
          events := setKey ((lookupKey st.dailyStats day).getD ⟨0, [], []⟩).events n
            (((lookupKey ((lookupKey st.dailyStats day).getD ⟨0, [], []⟩).events n).getD 0) + 1) } := rfl

@[simp] theorem updateSessionData_funnelMetrics (env : Env) (n : String) (st : AnalyticsData) :
    (updateSessionData env n st).funnelMetrics = st.funnelMetrics := by
  unfold updateSessionData
  cases st.sessions.find? (fun s => s.id == env.sessionId) <;> rfl

@[simp] theorem updateSessionData_conversionRates (env : Env) (n : String) (st : AnalyticsData) :
    (updateSessionData env n st).conversionRates = st.conversionRates := by
  unfold updateSessionData
  cases st.sessions.find? (fun s => s.id == env.sessionId) <;> rfl

@[simp] theorem updateSessionData_dailyStats (env : Env) (n : String) (st : AnalyticsData) :
    (updateSessionData env n st).dailyStats = st.dailyStats := by
  unfold updateSessionData
  cases st.sessions.find? (fun s => s.id == env.sessionId) <;> rfl

@[simp] theorem updateSessionData_events (env : Env) (n : String) (st : AnalyticsData) :
    (updateSessionData env n st).events = st.events := by
  unfold updateSessionData
  cases st.sessions.find? (fun s => s.id == env.sessionId) <;> rfl

theorem updateSessionData_sessions (env : Env) (n : String) (st : AnalyticsData) :
    (updateSessionData env n st).sessions = upsertSessions env n st.sessions := by
  unfold updateSessionData upsertSessions
  cases st.sessions.find? (fun s => s.id == env.sessionId) <;> rfl

theorem updateSessionData_totalSessions (env : Env) (n : String) (st : AnalyticsData) :
    (updateSessionData env n st).totalSessions = upsertTotal env st.sessions st.totalSessions := by
  unfold updateSessionData upsertTotal
  cases st.sessions.find? (fun s => s.id == env.sessionId) <;> rfl

theorem trackEvent_funnelMetrics (env : Env) (n : String) (st : AnalyticsData) :
    (trackEvent env n st).funnelMetrics = incMetric n st.funnelMetrics := by
  simp [trackEvent]

theorem trackEvent_conversionRates (env : Env) (n : String) (st : AnalyticsData) :
    (trackEvent env n st).conversionRates
      = calculateConversionRates (incMetric n st.funnelMetrics) st.conversionRates := by
  simp [trackEvent]

theorem trackEvent_events (env : Env) (n : String) (st : AnalyticsData) :
    (trackEvent env n st).events = st.events ++ [mkEvent env n] := by
  simp [trackEvent]

theorem trackEvent_sessions (env : Env) (n : String) (st : AnalyticsData) :
    (trackEvent env n st).sessions = upsertSessions env n st.sessions := by
  simp [trackEvent, updateSessionData_sessions]

theorem trackEvent_totalSessions (env : Env) (n : String) (st : AnalyticsData) :
    (trackEvent env n st).totalSessions = upsertTotal env st.sessions st.totalSessions := by
  simp [trackEvent, updateSessionData_totalSessions]

theorem trackEvent_dailyStats (env : Env) (n : String) (st : AnalyticsData) :
    (trackEvent env n st).dailyStats = (updateDailyStats (dayKey env.now) n st).dailyStats := by
  simp [trackEvent, updateDailyStats_dailyStats]

theorem metricsLE_incMetric (n : String) (m : Metrics) : metricsLE m (incMetric n m) := by
  unfold incMetric metricsLE
  split_ifs <;> simp

/-- C1: for every funnelMetrics and every rate of the fixed
numerator/denominator table whose denominator is nonzero,
`computeConversionRates` yields exactly `round2(100 * numerator /
denominator)` rendered with exactly two decimal digits; on the worked
example `quiz_loaded=100, quiz_started=40, quiz_completed=10,
sales_page_loaded=8, sales_page_scrolled=4, checkout_clicked=1` the six
rates are the strings "40.00", "25.00", "80.00", "50.00", "25.00",
"1.00". -/
theorem C1_conversion_rate_correctness :
    (∀ (m : Metrics) (k : RateKey), k.den m ≠ 0 →
        k.get (computeConversionRates m)
            = some (renderCents (specCents (k.num m) (k.den m)))
        ∧ ∃ frac, renderCents (specCents (k.num m) (k.den m))
              = toString (specCents (k.num m) (k.den m) / 100) ++ "." ++ frac
            ∧ frac.length = 2)
    ∧ computeConversionRates testMetrics
        = ⟨some "40.00", some "25.00", some "80.00", some "50.00", some "25.00", some "1.00"⟩ := by
  constructor
  · intro m k h
    constructor
    · rw [computeConversionRates, get_calculateConversionRates,
        if_pos (Nat.pos_of_ne_zero h), toFixed2, specCents_eq_natDiv _ _ h]
    · exact ⟨_, rfl, rfl⟩
  · decide

/-- Witness for C1 at the specification's worked example: the quiz-start
denominator is nonzero and the rendered rate is "40.00". -/
theorem C1_witness :
    RateKey.quizStart.den testMetrics ≠ 0
    ∧ RateKey.quizStart.get (computeConversionRates testMetrics) = some "40.00" := by
  have h : RateKey.quizStart.den testMetrics ≠ 0 := by decide
  have h2 := (C1_conversion_rate_correctness.1 testMetrics RateKey.quizStart h).1
  refine ⟨h, ?_⟩
  rw [h2, specCents_eq_natDiv _ _ h]
  decide

/-- Freshly recomputed rates absorb any rate object that was itself
computed from pointwise-smaller metrics: overwritten where the new
denominator is positive, and untouched-but-absent where it is zero. -/
theorem rates_fresh_of_le (m m2 : Metrics) (h : metricsLE m m2) :
    calculateConversionRates m2 (computeConversionRates m) = computeConversionRates m2 := by
  obtain ⟨h1, h2, h3, h4, h5, h6⟩ := h
  simp only [computeConversionRates, calculateConversionRates_fields, emptyRates,
    Rates.mk.injEq]
  refine ⟨?_, ?_, ?_, ?_, ?_, ?_⟩ <;> (split_ifs <;> first | rfl | omega)

/-- After any trace of recorded events, the stored `conversionRates`
coincide with a from-scratch recomputation from the current metrics. -/
theorem rates_pure_invariant (tr : List (Env × String)) :
    ∀ st : AnalyticsData, st.conversionRates = computeConversionRates st.funnelMetrics →
      (applyTrace tr st).conversionRates
        = computeConversionRates (applyTrace tr st).funnelMetrics := by
  induction tr with
  | nil => intro st h; exact h
  | cons e rest ih =>
      intro st h
      simp only [applyTrace]
      apply ih
      rw [trackEvent_conversionRates, trackEvent_funnelMetrics, h]
      exact rates_fresh_of_le _ _ (metricsLE_incMetric e.2 st.funnelMetrics)

/-- C2: after every sequence of recorded events starting from the default
document, `conversionRates` equals the pure from-scratch recomputation
from the current `funnelMetrics`; a rate is present exactly when its
denominator metric is positive; with all-zero metrics the mapping is
empty. -/
theorem C2_rates_pure_function :
    (∀ tr : List (Env × String),
        (applyTrace tr getDefaultData).conversionRates
          = computeConversionRates (applyTrace tr getDefaultData).funnelMetrics)
    ∧ (∀ (m : Metrics) (k : RateKey),
        (k.get (computeConversionRates m)).isSome ↔ 0 < k.den m)
    ∧ computeConversionRates zeroMetrics = emptyRates := by
  refine ⟨?_, ?_, ?_⟩
  · intro tr
    exact rates_pure_invariant tr getDefaultData rfl
  · intro m k
    rw [computeConversionRates, get_calculateConversionRates]
    split_ifs with h
    · simp [h]
    · cases k <;> simp [RateKey.get, emptyRates, h]
  · rfl

/-- C3: for every event name and state, `trackEvent` increments the
current day's per-name counter by exactly one (creating it at 0 first if
absent) and leaves every other day's bucket unchanged; recording the same
name on two different calendar days yields two separate day keys, each
with its own counter at 1. -/
theorem C3_daily_bucket_update (env : Env) (eventName : String) (st : AnalyticsData) :
    dailyCount (trackEvent env eventName st) (dayKey env.now) eventName
        = dailyCount st (dayKey env.now) eventName + 1
    ∧ (∀ d, d ≠ dayKey env.now →
        lookupKey (trackEvent env eventName st).dailyStats d = lookupKey st.dailyStats d)
    ∧ twoDayState.dailyStats.map Prod.fst = ["2026-10-10", "2026-10-11"]
    ∧ dailyCount twoDayState "2026-10-10" "quiz_loaded" = 1
    ∧ dailyCount twoDayState "2026-10-11" "quiz_loaded" = 1 := by
  refine ⟨?_, ?_, by decide, by decide, by decide⟩
  · unfold dailyCount
    rw [trackEvent_dailyStats, updateDailyStats_dailyStats]
    cases hb : lookupKey st.dailyStats (dayKey env.now) <;>
      simp [hb, lookupKey_setKey, lookupKey]
  · intro d hd
    rw [trackEvent_dailyStats, updateDailyStats_dailyStats, lookupKey_setKey]
    exact if_neg (fun e => hd e.symm)

/-- Witness for C3 at a concrete input: recording "quiz_loaded" on
2026-10-10 from the default document bumps that day's counter from 0 to 1
and leaves the (absent) 2026-10-11 bucket absent. -/
theorem C3_witness :
    dailyCount (trackEvent (envAt "s1" "2026-10-10T08:00:00.000Z") "quiz_loaded" getDefaultData)
        (dayKey "2026-10-10T08:00:00.000Z") "quiz_loaded"
      = dailyCount getDefaultData (dayKey "2026-10-10T08:00:00.000Z") "quiz_loaded" + 1
    ∧ lookupKey (trackEvent (envAt "s1" "2026-10-10T08:00:00.000Z") "quiz_loaded"
          getDefaultData).dailyStats "2026-10-11"
      = lookupKey getDefaultData.dailyStats "2026-10-11" := by
  have h := C3_daily_bucket_update (envAt "s1" "2026-10-10T08:00:00.000Z") "quiz_loaded"
    getDefaultData
  exact ⟨h.1, h.2.1 "2026-10-11" (by decide)⟩

theorem dayBucketsPristine_trackEvent (env : Env) (n : String) (st : AnalyticsData)
    (h : dayBucketsPristine st) : dayBucketsPristine (trackEvent env n st) := by
  intro d b hb
  rw [trackEvent_dailyStats, updateDailyStats_dailyStats, lookupKey_setKey] at hb
  split_ifs at hb with hd
  · injection hb with hXb
    subst hXb
    cases hb0 : lookupKey st.dailyStats (dayKey env.now) with
    | none => simp [hb0]
    | some b0 => simpa [hb0] using h _ _ hb0
  · exact h _ _ hb

theorem dayBucketsPristine_trace (tr : List (Env × String)) :
    ∀ st, dayBucketsPristine st → dayBucketsPristine (applyTrace tr st) := by
  induction tr with
  | nil => intro st h; exact h
  | cons e rest ih =>
      intro st h
      exact ih _ (dayBucketsPristine_trackEvent e.1 e.2 st h)

/-- C10: in every state reachable from the default document, every day
bucket's `sessions` field is 0 and its `conversions` object is empty —
they are created with these values and no operation ever updates them. -/
theorem C10_day_bucket_auxiliaries_never_updated (tr : List (Env × String)) (d : String)
    (b : DayBucket) (h : lookupKey (applyTrace tr getDefaultData).dailyStats d = some b) :
    b.sessions = 0 ∧ b.conversions = [] := by
  refine dayBucketsPristine_trace tr getDefaultData ?_ d b h
  intro d b hb
  simp [getDefaultData, lookupKey] at hb

/-- Witness for C10: the day bucket created by one concrete recorded
event has `sessions = 0` and empty `conversions`. -/
theorem C10_witness :
    (⟨0, [("quiz_loaded", 1)], []⟩ : DayBucket).sessions = 0
    ∧ (⟨0, [("quiz_loaded", 1)], []⟩ : DayBucket).conversions = [] :=
  C10_day_bucket_auxiliaries_never_updated
    [(envAt "s1" "2026-10-10T08:00:00.000Z", "quiz_loaded")] "2026-10-10"
    ⟨0, [("quiz_loaded", 1)], []⟩ (by decide)

theorem find?_updateFirst (f : Session → Session) (sid : String) (l : List Session)
    (hf : ∀ s, (f s).id = s.id) (s0 : Session)
    (h : l.find? (fun s => s.id == sid) = some s0) :
    (updateFirst f sid l).find? (fun s => s.id == sid) = some (f s0) := by
  induction l with
  | nil => simp at h
  | cons s rest ih =>
      unfold updateFirst
      cases hs : (s.id == sid) with
      | true =>
          rw [if_pos rfl]
          rw [@List.find?_cons_of_pos _ (fun s => s.id == sid) s rest hs] at h
          injection h with h0
          subst h0
          have hfs : ((f s).id == sid) = true := by rw [hf]; exact hs
          exact @List.find?_cons_of_pos _ (fun s => s.id == sid) (f s) rest hfs
      | false =>
          have hns : ¬((s.id == sid) = true) := by simp [hs]
          rw [if_neg (fun e => Bool.false_ne_true e)]
          rw [@List.find?_cons_of_neg _ (fun s => s.id == sid) s rest hns] at h
          rw [@List.find?_cons_of_neg _ (fun s => s.id == sid) s (updateFirst f sid rest) hns]
          exact ih h

theorem find?_upsertSessions (env : Env) (n : String) (l : List Session) :
    (upsertSessions env n l).find? (fun s => s.id == env.sessionId)
      = some (touchSession n env.now
          ((l.find? (fun s => s.id == env.sessionId)).getD (freshSession env))) := by
  unfold upsertSessions
  cases h : l.find? (fun s => s.id == env.sessionId) with
  | some s0 =>
      simpa using find?_updateFirst (touchSession n env.now) env.sessionId l
        (fun s => rfl) s0 h
  | none => simp [List.find?_append, h, touchSession, freshSession]

theorem findSession_trackEvent (env : Env) (n : String) (st : AnalyticsData) :
    findSession (trackEvent env n st) env.sessionId
      = some (touchSession n env.now
          ((findSession st env.sessionId).getD (freshSession env))) := by
  unfold findSession
  rw [trackEvent_sessions, find?_upsertSessions]

theorem count_insertFlag (l : List String) (k : String) (h : l.count k ≤ 1) :
    (insertFlag l k).count k = 1 := by
  unfold insertFlag
  by_cases hm : k ∈ l
  · rw [if_pos hm]
    have h1 : 0 < l.count k := List.count_pos_iff.mpr hm
    omega
  · rw [if_neg hm]
    simp [List.count_append, List.count_eq_zero.mpr hm]

theorem metricVal_incMetric_canonical (n : String) (m : Metrics) (h : n ∈ canonicalStages) :
    metricVal n (incMetric n m) = metricVal n m + 1 := by
  simp only [canonicalStages, List.mem_cons, List.mem_singleton, List.not_mem_nil,
    or_false] at h
  rcases h with rfl | rfl | rfl | rfl | rfl | rfl <;> simp [incMetric, metricVal]

/-- C4: recording the same canonical event name twice for one session
doubles the funnel counter and the global event log grows by two, while
the session's funnel-flag set still contains exactly one entry for that
name (flag insertion is idempotent).  The `hs` hypothesis is the
representation invariant of the JS flag object: a key set holds a key at
most once. -/
theorem C4_idempotent_funnel_membership (env : Env) (eventName : String) (st : AnalyticsData)
    (hc : eventName ∈ canonicalStages)
    (hs : ∀ s ∈ st.sessions, s.funnel.count eventName ≤ 1) :
    metricVal eventName (trackEvent env eventName (trackEvent env eventName st)).funnelMetrics
        = metricVal eventName st.funnelMetrics + 2
    ∧ (trackEvent env eventName (trackEvent env eventName st)).events.length
        = st.events.length + 2
    ∧ sessionFunnelCount (trackEvent env eventName (trackEvent env eventName st))
        env.sessionId eventName = 1 := by
  refine ⟨?_, ?_, ?_⟩
  · rw [trackEvent_funnelMetrics, trackEvent_funnelMetrics,
      metricVal_incMetric_canonical _ _ hc, metricVal_incMetric_canonical _ _ hc]
  · rw [trackEvent_events, trackEvent_events]
    simp
  · have h0 : ((findSession st env.sessionId).getD (freshSession env)).funnel.count eventName
        ≤ 1 := by
      unfold findSession
      cases hf : st.sessions.find? (fun s => s.id == env.sessionId) with
      | none => simp [freshSession]
      | some s0 => exact hs s0 (List.mem_of_find?_eq_some hf)
    unfold sessionFunnelCount
    rw [findSession_trackEvent, findSession_trackEvent]
    simp only [Option.getD_some]
    unfold touchSession
    simp only []
    exact count_insertFlag _ _ (le_of_eq (count_insertFlag _ _ h0))

/-- Witness for C4: recording "quiz_loaded" twice from the default
document gives counter 2, two logged events and a single funnel flag. -/
theorem C4_witness :
    metricVal "quiz_loaded"
        (trackEvent (envAt "s1" "2026-10-10T08:00:00.000Z") "quiz_loaded"
          (trackEvent (envAt "s1" "2026-10-10T08:00:00.000Z") "quiz_loaded"
            getDefaultData)).funnelMetrics
      = metricVal "quiz_loaded" getDefaultData.funnelMetrics + 2
    ∧ (trackEvent (envAt "s1" "2026-10-10T08:00:00.000Z") "quiz_loaded"
        (trackEvent (envAt "s1" "2026-10-10T08:00:00.000Z") "quiz_loaded"
          getDefaultData)).events.length = getDefaultData.events.length + 2
    ∧ sessionFunnelCount
        (trackEvent (envAt "s1" "2026-10-10T08:00:00.000Z") "quiz_loaded"
          (trackEvent (envAt "s1" "2026-10-10T08:00:00.000Z") "quiz_loaded"
            getDefaultData)) "s1" "quiz_loaded" = 1 :=
  C4_idempotent_funnel_membership (envAt "s1" "2026-10-10T08:00:00.000Z") "quiz_loaded"
    getDefaultData (by decide) (by intro s hs; simp [getDefaultData] at hs)

theorem updateFirst_map_id (f : Session → Session) (sid : String) (l : List Session)
    (hf : ∀ s, (f s).id = s.id) :
    (updateFirst f sid l).map Session.id = l.map Session.id := by
  induction l with
  | nil => rfl
  | cons s rest ih =>
      unfold updateFirst
      by_cases h : (s.id == sid) = true
      · rw [if_pos h]
        simp [hf]
      · rw [if_neg h]
        simp [ih]

theorem updateFirst_length (f : Session → Session) (sid : String) (l : List Session) :
    (updateFirst f sid l).length = l.length := by
  induction l with
  | nil => rfl
  | cons s rest ih =>
      unfold updateFirst
      by_cases h : (s.id == sid) = true
      · rw [if_pos h]; rfl
      · rw [if_neg h]; simp [ih]

theorem sessionsInv_trackEvent (env : Env) (n : String) (st : AnalyticsData)
    (h : sessionsInv st) : sessionsInv (trackEvent env n st) := by
  obtain ⟨hnd, hlen⟩ := h
  unfold sessionsInv
  rw [trackEvent_sessions, trackEvent_totalSessions]
  unfold upsertSessions upsertTotal
  cases hf : st.sessions.find? (fun s => s.id == env.sessionId) with
  | some s0 =>
      dsimp only
      exact ⟨by
          rw [updateFirst_map_id (touchSession n env.now) env.sessionId st.sessions
            (fun s => rfl)]
          exact hnd,
        by rw [updateFirst_length, hlen]⟩
  | none =>
      dsimp only
      have hnot : env.sessionId ∉ st.sessions.map Session.id := by
        intro hmem
        rcases List.mem_map.mp hmem with ⟨s, hsmem, hid⟩
        have hne := List.find?_eq_none.mp hf s hsmem
        simp [hid] at hne
      constructor
      · simp only [List.map_append, List.map_cons, List.map_nil, touchSession, freshSession]
        rw [List.nodup_append]
        exact ⟨hnd, List.nodup_singleton _, by simpa using hnot⟩
      · simp [hlen]

theorem sessionsInv_trace (tr : List (Env × String)) :
    ∀ st, sessionsInv st → sessionsInv (applyTrace tr st) := by
  induction tr with
  | nil => intro st h; exact h
  | cons e rest ih => intro st h; exact ih _ (sessionsInv_trackEvent e.1 e.2 st h)

/-- C5: in every state reachable from the default document the session
ids in `sessions` are pairwise distinct and `totalSessions` equals their
number; recording with ids s1, s2, s1 yields two sessions, two counted,
and an s1 event sequence of length 2. -/
theorem C5_session_upsert :
    (∀ tr : List (Env × String),
        ((applyTrace tr getDefaultData).sessions.map Session.id).Nodup
        ∧ (applyTrace tr getDefaultData).totalSessions
            = (applyTrace tr getDefaultData).sessions.length)
    ∧ s1s2s1State.totalSessions = 2
    ∧ s1s2s1State.sessions.length = 2
    ∧ (findSession s1s2s1State "s1").map (fun s => s.events.length) = some 2 := by
  refine ⟨?_, by decide, by decide, by decide⟩
  intro tr
  exact sessionsInv_trace tr getDefaultData ⟨by simp [getDefaultData], rfl⟩

/-- C6: loading from a missing slot, or from a slot whose content does not
parse, yields the default document (all counters zero, empty sequences),
and the load function is total, so no error reaches the caller. -/
theorem C6_corrupt_store_recovery (parse : String → Option AnalyticsData) (s : String)
    (h : parse s = none) :
    loadData none parse = getDefaultData
    ∧ loadData (some s) parse = getDefaultData
    ∧ (loadData (some s) parse).totalSessions = 0
    ∧ (loadData (some s) parse).events = [] := by
  have h2 : loadData (some s) parse = getDefaultData := by
    unfold loadData
    dsimp only
    by_cases he : s = ""
    · rw [if_pos he]
    · rw [if_neg he, h]
  exact ⟨rfl, h2, by rw [h2]; rfl, by rw [h2]; rfl⟩

/-- Witness for C6: a parser that rejects the concrete corrupt text. -/
theorem C6_witness :
    loadData none (fun _ => none) = getDefaultData
    ∧ loadData (some "this is not a parseable document") (fun _ => none) = getDefaultData
    ∧ (loadData (some "this is not a parseable document") (fun _ => none)).totalSessions = 0
    ∧ (loadData (some "this is not a parseable document") (fun _ => none)).events = [] :=
  C6_corrupt_store_recovery (fun _ => none) "this is not a parseable document" rfl

/-- C7 counterexample: a defined but throwing gtag integration makes the
recording call return the thrown error — it does propagate out of
`trackEvent`, contrary to the claim that a failing sink never does. -/
theorem C7_counterexample :
    (trackEventWithSinks (some (fun _ => Except.error "gtag boom")) none
        (envAt "s1" "2026-10-10T08:00:00.000Z") "quiz_loaded" getDefaultData).2
      = Except.error "gtag boom" := rfl

/-- C7 (amended): the sink call runs strictly after steps 1-7, so whatever
the sinks do, the resulting document is exactly the fully updated one
(nothing is rolled back or blocked), and with no integrations present the
call finishes without error; however a throwing integration's error does
propagate out of the recording call. -/
theorem C7_sink_isolation_amended (gtag fbq : Option (Event → Except String Unit))
    (env : Env) (eventName : String) (st : AnalyticsData) :
    (trackEventWithSinks gtag fbq env eventName st).1 = trackEvent env eventName st
    ∧ (gtag = none → fbq = none →
        (trackEventWithSinks gtag fbq env eventName st).2 = Except.ok ()) := by
  refine ⟨rfl, ?_⟩
  rintro rfl rfl
  rfl

/-- Witness for C7 (amended) with both integrations absent. -/
theorem C7_witness :
    (trackEventWithSinks none none (envAt "s1" "2026-10-10T08:00:00.000Z") "quiz_loaded"
        getDefaultData).1
      = trackEvent (envAt "s1" "2026-10-10T08:00:00.000Z") "quiz_loaded" getDefaultData
    ∧ (trackEventWithSinks none none (envAt "s1" "2026-10-10T08:00:00.000Z") "quiz_loaded"
        getDefaultData).2 = Except.ok () :=
  ⟨(C7_sink_isolation_amended none none (envAt "s1" "2026-10-10T08:00:00.000Z")
      "quiz_loaded" getDefaultData).1,
   (C7_sink_isolation_amended none none (envAt "s1" "2026-10-10T08:00:00.000Z")
      "quiz_loaded" getDefaultData).2 rfl rfl⟩

/-- C8: reset with the confirmation gate answered false changes nothing
and returns false; answered true it replaces the document with the
default, persists it, and returns true. -/
theorem C8_reset_semantics (st : AnalyticsData) (store : Option AnalyticsData) :
    resetAnalytics false st store = (false, st, store)
    ∧ resetAnalytics true st store = (true, getDefaultData, some getDefaultData) :=
  ⟨rfl, rfl⟩

/-- C9 counterexample: `getAnalytics` hands back the live reference, so a
caller writing through the returned value changes the ledger's own state
(here `totalSessions` becomes 99, no longer the ledger's 0) — the claim
that such a mutation does not change the ledger is false. -/
theorem C9_counterexample :
    readRef
        (writeRef (LedgerHeap.mk getDefaultData)
          (getAnalytics (LedgerHeap.mk getDefaultData))
          { getDefaultData with totalSessions := 99 })
        DataRef.ref
      ≠ getDefaultData := by decide

/-- C9 (amended): `getAnalytics` returns the live document by reference,
not a copy: reading through the result sees the ledger's state, and
writing through it is observed by the ledger; read-only use is only a
caller convention. -/
theorem C9_snapshot_aliases_live_document (h : LedgerHeap) :
    getAnalytics h = DataRef.ref
    ∧ readRef h (getAnalytics h) = h.data
    ∧ ∀ d, readRef (writeRef h (getAnalytics h) d) DataRef.ref = d :=
  ⟨rfl, rfl, fun _ => rfl⟩
